import Mathlib

/-
Verification of the SQLite database comparison engine (db_comparator.py).

The Python source is shallowly embedded:
  * SQLite scalar values become the inductive type `Value`; the constructor
    `Value.unhashable` stands for a Python object without a hash (for example
    a list), the only kind of value on which row normalization can fail.
  * Python dicts become association lists built with `dictUpd`, which mirrors
    dict assignment semantics: an existing key keeps its position and gets the
    new value, a fresh key is appended.
  * Python sets of normalized rows become `Finset`s; Python treats the int 1
    and the float 1.0 as equal set elements (numeric cross-type equality and
    hashing), which the embedding mirrors by `canonValue`, mapping integers to
    the corresponding rationals before rows enter a set.
  * Python floats are modelled as exact rationals; `round(x, 10)` is modelled
    by `round10`, rounding half to even as Python does.
  * sqlite3 calls that can raise (row count / data queries on a vanished
    table) return `Except String`.
-/

namespace DbComparator

/-- Scalar values as stored in a fetched row. -/
inductive Value : Type
  | null : Value
  | int : Int → Value
  | real : Rat → Value
  | text : String → Value
  | blob : List Nat → Value
  | unhashable : String → Value
deriving DecidableEq

/-- A fetched row: `dict(zip(columns, row))` in the source, an association
list of column name and value here.  Python dicts never hold a key twice. -/
abbrev Row := List (String × Value)

/-- True for every value Python can hash; `frozenset` raises on the rest. -/
def isHashable : Value → Bool
  | .unhashable _ => false
  | _ => true

/-- Round half to even to the nearest integer, as Python round does. -/
def rndHalfEven (q : Rat) : Int :=
  if q - (⌊q⌋ : Rat) < 1 / 2 then ⌊q⌋
  else if 1 / 2 < q - (⌊q⌋ : Rat) then ⌊q⌋ + 1
  else if ⌊q⌋ % 2 = 0 then ⌊q⌋ else ⌊q⌋ + 1

/-- Model of Python round(q, 10): round to 10 decimal digits. -/
def round10 (q : Rat) : Rat := ((rndHalfEven (q * 10 ^ 10) : Int) : Rat) / 10 ^ 10

/-- The per-value branch of normalize_row in compare_table_data: None stays
None, strings are stripped, floats are rounded to 10 decimal digits, every
other value passes through unchanged. -/
def normalize_value : Value → Value
  | .null => .null
  | .text s => .text s.trim
  | .real q => .real (round10 q)
  | v => v

/-- Python == identifies the int n with the float n.0 inside sets, so set
elements are canonicalized by mapping integers into the rationals. -/
def canonValue : Value → Value
  | .int n => .real (n : Rat)
  | v => v

/-- A normalized row: the frozenset of normalized (column, value) items. -/
abbrev NormRow := Finset (String × Value)

/-- True when normalize_row would succeed on the row, that is when every
normalized value is hashable; frozenset raises otherwise. -/
def row_hashable (row : Row) : Bool :=
  row.all (fun kv => isHashable (normalize_value kv.2))

/-- normalize_row of compare_table_data: normalize each value and collect the
items into a frozenset.  Only evaluated on hashable rows. -/
def normalize_row (row : Row) : NormRow :=
  (row.map (fun kv => (kv.1, canonValue (normalize_value kv.2)))).toFinset

/-- The differences dict produced by compare_table_data. -/
structure DataDiff where
  row_count_match : Bool
  rows_only_in_db1 : Nat
  rows_only_in_db2 : Nat
  modified_rows : Nat
  identical_rows : Nat
  is_data_identical : Bool
  comparison_error : Option String
deriving DecidableEq

/-- SQLiteComparator.compare_table_data: set-based diff of two row lists.
The first branch is the both-empty shortcut; the second is the normal path,
guarded by every row being hashable; the third is the except-fallback the
source takes when frozenset construction raises on an unhashable value. -/
def compare_table_data (data1 data2 : List Row) : DataDiff :=
  let base : DataDiff :=
    { row_count_match := data1.length == data2.length
      rows_only_in_db1 := 0
      rows_only_in_db2 := 0
      modified_rows := 0
      identical_rows := 0
      is_data_identical := false
      comparison_error := none }
  if data1.length = 0 ∧ data2.length = 0 then
    { base with is_data_identical := true }
  else if data1.all row_hashable ∧ data2.all row_hashable then
    let s1 := (data1.map normalize_row).toFinset
    let s2 := (data2.map normalize_row).toFinset
    { base with
      rows_only_in_db1 := (s1 \ s2).card
      rows_only_in_db2 := (s2 \ s1).card
      identical_rows := (s1 ∩ s2).card
      is_data_identical :=
        (s1 \ s2).card == 0 && ((s2 \ s1).card == 0 && (data1.length == data2.length)) }
  else
    { base with
      rows_only_in_db1 := data1.length
      rows_only_in_db2 := data2.length
      comparison_error := some "unhashable type during row normalization" }

/-- Claim C3: the is_data_identical flag of compare_table_data holds iff the
reported rows-only-in-A count is 0, the reported rows-only-in-B count is 0,
and the two input row lists have equal length. -/
theorem c3_is_data_identical_iff (data1 data2 : List Row) :
    (compare_table_data data1 data2).is_data_identical = true ↔
      ((compare_table_data data1 data2).rows_only_in_db1 = 0 ∧
       (compare_table_data data1 data2).rows_only_in_db2 = 0 ∧
       data1.length = data2.length) := by
  unfold compare_table_data
  split
  · next h => simp [h.1, h.2]
  · next hne =>
    split
    · simp [Nat.beq_eq_true_eq, Bool.and_eq_true, beq_iff_eq]
    · simp only []
      constructor
      · intro h
        exact absurd h (by simp)
      · rintro ⟨h1, h2, _⟩
        exact absurd ⟨h1, h2⟩ hne

lemma perm_all_eq {α : Type} {l l' : List α} (p : α → Bool) (h : l.Perm l') :
    l.all p = l'.all p := by
  apply Bool.eq_iff_iff.mpr
  simp only [List.all_eq_true]
  exact ⟨fun hh x hx => hh x (h.mem_iff.mpr hx), fun hh x hx => hh x (h.mem_iff.mp hx)⟩

lemma compare_table_data_perm (data1 data2 data1' data2' : List Row)
    (h1 : data1.Perm data1') (h2 : data2.Perm data2') :
    compare_table_data data1 data2 = compare_table_data data1' data2' := by
  unfold compare_table_data
  rw [h1.length_eq, h2.length_eq, perm_all_eq row_hashable h1, perm_all_eq row_hashable h2,
    List.toFinset_eq_of_perm _ _ (h1.map normalize_row),
    List.toFinset_eq_of_perm _ _ (h2.map normalize_row)]

/-- Claim C8: permuting the row sequence of either input of compare_table_data
never changes the reported counts: rows only in A, rows only in B, identical
rows, and the row-count-match flag are all invariant under reordering. -/
theorem c8_row_order_invariance (data1 data2 data1' data2' : List Row)
    (h1 : data1.Perm data1') (h2 : data2.Perm data2') :
    (compare_table_data data1 data2).rows_only_in_db1 =
        (compare_table_data data1' data2').rows_only_in_db1 ∧
    (compare_table_data data1 data2).rows_only_in_db2 =
        (compare_table_data data1' data2').rows_only_in_db2 ∧
    (compare_table_data data1 data2).identical_rows =
        (compare_table_data data1' data2').identical_rows ∧
    (compare_table_data data1 data2).row_count_match =
        (compare_table_data data1' data2').row_count_match := by
  rw [compare_table_data_perm data1 data2 data1' data2' h1 h2]
  exact ⟨rfl, rfl, rfl, rfl⟩

/-- Witness for C8 at a concrete pair of reversed two-row lists. -/
theorem c8_witness :
    (compare_table_data [[("a", Value.int 1)], [("a", Value.int 2)]]
        [[("a", Value.int 3)]]).rows_only_in_db1 =
      (compare_table_data [[("a", Value.int 2)], [("a", Value.int 1)]]
        [[("a", Value.int 3)]]).rows_only_in_db1 ∧
    (compare_table_data [[("a", Value.int 1)], [("a", Value.int 2)]]
        [[("a", Value.int 3)]]).rows_only_in_db2 =
      (compare_table_data [[("a", Value.int 2)], [("a", Value.int 1)]]
        [[("a", Value.int 3)]]).rows_only_in_db2 ∧
    (compare_table_data [[("a", Value.int 1)], [("a", Value.int 2)]]
        [[("a", Value.int 3)]]).identical_rows =
      (compare_table_data [[("a", Value.int 2)], [("a", Value.int 1)]]
        [[("a", Value.int 3)]]).identical_rows ∧
    (compare_table_data [[("a", Value.int 1)], [("a", Value.int 2)]]
        [[("a", Value.int 3)]]).row_count_match =
      (compare_table_data [[("a", Value.int 2)], [("a", Value.int 1)]]
        [[("a", Value.int 3)]]).row_count_match :=
  c8_row_order_invariance _ _ _ _ (by decide) (by decide)

/-- Claim C5: whenever some input row fails normalization (contains an
unhashable value), compare_table_data does not abort: it reports the full
input lengths as the only-in counts, records an error, and leaves the
fully-identical flag false. -/
theorem c5_normalization_failure_fallback (data1 data2 : List Row)
    (h : (data1 ++ data2).any (fun r => !row_hashable r) = true) :
    (compare_table_data data1 data2).rows_only_in_db1 = data1.length ∧
    (compare_table_data data1 data2).rows_only_in_db2 = data2.length ∧
    (compare_table_data data1 data2).comparison_error.isSome = true ∧
    (compare_table_data data1 data2).is_data_identical = false := by
  rw [List.any_eq_true] at h
  obtain ⟨r, hr, hrh⟩ := h
  rw [List.mem_append] at hr
  rw [Bool.not_eq_true'] at hrh
  unfold compare_table_data
  split
  · next hlen =>
    exfalso
    rcases hr with hr | hr
    · rw [List.eq_nil_of_length_eq_zero hlen.1] at hr
      exact absurd hr (List.not_mem_nil r)
    · rw [List.eq_nil_of_length_eq_zero hlen.2] at hr
      exact absurd hr (List.not_mem_nil r)
  · split
    · next hall =>
      exfalso
      rcases hr with hr | hr
      · have := (List.all_eq_true.mp hall.1) r hr
        rw [hrh] at this; exact Bool.false_ne_true this
      · have := (List.all_eq_true.mp hall.2) r hr
        rw [hrh] at this; exact Bool.false_ne_true this
    · exact ⟨rfl, rfl, rfl, rfl⟩

/-- Witness for C5: one row holding an unhashable value on side A. -/
theorem c5_witness :
    (compare_table_data [[("a", Value.unhashable "list")]] []).rows_only_in_db1 =
        ([[("a", Value.unhashable "list")]] : List Row).length ∧
    (compare_table_data [[("a", Value.unhashable "list")]] []).rows_only_in_db2 =
        ([] : List Row).length ∧
    (compare_table_data [[("a", Value.unhashable "list")]] []).comparison_error.isSome = true ∧
    (compare_table_data [[("a", Value.unhashable "list")]] []).is_data_identical = false :=
  c5_normalization_failure_fallback _ _ (by decide)

lemma rndHalfEven_intCast (n : Int) : rndHalfEven (n : Rat) = n := by
  unfold rndHalfEven
  norm_num [Int.floor_intCast]

lemma round10_den9 (a : Int) : round10 ((a : Rat) / 10 ^ 9) = (a : Rat) / 10 ^ 9 := by
  unfold round10
  have h : ((a : Rat) / 10 ^ 9) * 10 ^ 10 = ((a * 10 : Int) : Rat) := by
    push_cast
    field_simp
    ring
  rw [h, rndHalfEven_intCast]
  push_cast
  field_simp
  ring

lemma row_hashable_real (c : String) (q : Rat) :
    row_hashable [(c, Value.real q)] = true := rfl

lemma ctd_single_eq (r1 r2 : Row) (h1 : row_hashable r1 = true)
    (h2 : row_hashable r2 = true) (h : normalize_row r1 = normalize_row r2) :
    (compare_table_data [r1] [r2]).is_data_identical = true := by
  unfold compare_table_data
  rw [if_neg (by simp), if_pos (by simp [h1, h2])]
  simp [h]

lemma ctd_single_ne (r1 r2 : Row) (h1 : row_hashable r1 = true)
    (h2 : row_hashable r2 = true) (h : normalize_row r1 ≠ normalize_row r2) :
    (compare_table_data [r1] [r2]).is_data_identical = false ∧
    (compare_table_data [r1] [r2]).rows_only_in_db1 = 1 := by
  unfold compare_table_data
  rw [if_neg (by simp), if_pos (by simp [h1, h2])]
  have hsd : ({normalize_row r1} : Finset NormRow) \ {normalize_row r2} =
      {normalize_row r1} := by
    rw [Finset.sdiff_eq_self_iff_disjoint]
    exact Finset.disjoint_singleton.mpr h
  simp [hsd]

lemma normalize_row_single_real (c : String) (q : Rat) :
    normalize_row [(c, Value.real q)] = {(c, Value.real (round10 q))} := by
  simp [normalize_row, normalize_value, canonValue]

lemma round10_4e11 : round10 (4 / 10 ^ 11 : Rat) = 0 := by
  unfold round10
  have h : (4 / 10 ^ 11 : Rat) * 10 ^ 10 = 2 / 5 := by norm_num
  have hf : ⌊(2 / 5 : Rat)⌋ = 0 := by
    rw [Int.floor_eq_iff]; norm_num
  rw [h]
  unfold rndHalfEven
  rw [hf]
  rw [if_pos (by norm_num)]
  norm_num

lemma round10_6e11 : round10 (6 / 10 ^ 11 : Rat) = 1 / 10 ^ 10 := by
  unfold round10
  have h : (6 / 10 ^ 11 : Rat) * 10 ^ 10 = 3 / 5 := by norm_num
  have hf : ⌊(3 / 5 : Rat)⌋ = 0 := by
    rw [Int.floor_eq_iff]; norm_num
  rw [h]
  unfold rndHalfEven
  rw [hf]
  rw [if_neg (by norm_num), if_pos (by norm_num)]
  norm_num

/-- Claim C9, counterexample: the two single-row inputs hold float values
0.00000000004 and 0.00000000006, which agree on the first ten decimal digits
and differ only in the eleventh, yet rounding to 10 decimal digits sends them
to 0 and 0.0000000001 respectively, so the rows compare as distinct, contrary
to the claim that any pair differing only in the eleventh digit compares as
identical. -/
theorem c9_counterexample :
    (compare_table_data [[("v", Value.real (4 / 10 ^ 11))]]
        [[("v", Value.real (6 / 10 ^ 11))]]).is_data_identical = false ∧
    (compare_table_data [[("v", Value.real (4 / 10 ^ 11))]]
        [[("v", Value.real (6 / 10 ^ 11))]]).rows_only_in_db1 = 1 := by
  apply ctd_single_ne _ _ (row_hashable_real _ _) (row_hashable_real _ _)
  rw [normalize_row_single_real, normalize_row_single_real, round10_4e11, round10_6e11]
  intro heq
  rw [Finset.singleton_inj, Prod.mk.injEq, Value.real.injEq] at heq
  have := heq.2
  norm_num at this

/-- Claim C9, amended: floats are rounded to 10 decimal digits during
normalization, so two single-column float rows compare as identical whenever
the two values round to the same 10-digit decimal (which covers any pair
differing only in the eleventh digit away from a rounding boundary, but not
pairs astride a boundary), and any two distinct values expressible within 9
decimal digits, in particular values differing in the ninth digit, compare
as distinct. -/
theorem c9_amended (q1 q2 : Rat) (a b : Int) (h : round10 q1 = round10 q2)
    (hab : a ≠ b) :
    (compare_table_data [[("v", Value.real q1)]]
        [[("v", Value.real q2)]]).is_data_identical = true ∧
    (compare_table_data [[("v", Value.real ((a : Rat) / 10 ^ 9))]]
        [[("v", Value.real ((b : Rat) / 10 ^ 9))]]).is_data_identical = false := by
  constructor
  · apply ctd_single_eq _ _ (row_hashable_real _ _) (row_hashable_real _ _)
    rw [normalize_row_single_real, normalize_row_single_real, h]
  · apply (ctd_single_ne _ _ (row_hashable_real _ _) (row_hashable_real _ _) _).1
    rw [normalize_row_single_real, normalize_row_single_real, round10_den9, round10_den9]
    intro heq
    rw [Finset.singleton_inj, Prod.mk.injEq, Value.real.injEq] at heq
    have hv := heq.2
    field_simp at hv
    exact hab (by exact_mod_cast hv)

/-- Witness for C9 amended, at q1 = q2 = 0 and a = 0, b = 1. -/
theorem c9_amended_witness :
    (compare_table_data [[("v", Value.real 0)]]
        [[("v", Value.real 0)]]).is_data_identical = true ∧
    (compare_table_data [[("v", Value.real (((0 : Int) : Rat) / 10 ^ 9))]]
        [[("v", Value.real (((1 : Int) : Rat) / 10 ^ 9))]]).is_data_identical = false := by
  have := c9_amended 0 0 0 1 rfl (by decide)
  simpa using this

/-- One row of PRAGMA table_info, the column descriptor tuple
(cid, name, type, notnull, dflt_value, pk). -/
structure Col where
  cid : Nat
  name : String
  ctype : String
  notnull : Nat
  dflt : Option String
  pk : Nat
deriving DecidableEq

/-- Python dict assignment d[k] = v on an association list: an existing key
keeps its position and receives the new value, a fresh key is appended. -/
def dictUpd {α : Type} (d : List (String × α)) (k : String) (v : α) :
    List (String × α) :=
  if d.any (fun kv => kv.1 == k) then
    d.map (fun kv => if kv.1 == k then (k, v) else kv)
  else d ++ [(k, v)]

/-- The name-keyed dict comprehension of compare_schemas. -/
def schemaDict (s : List Col) : List (String × Col) :=
  s.foldl (fun d c => dictUpd d c.name c) []

def msgOnlyIn1 (n : String) : String :=
  "Column \x27" ++ n ++ "\x27 exists in DB1 but not in DB2"

def msgOnlyIn2 (n : String) : String :=
  "Column \x27" ++ n ++ "\x27 exists in DB2 but not in DB1"

def msgDiffDef (n t1 t2 : String) : String :=
  "Column \x27" ++ n ++ "\x27 has different definitions: DB1=" ++ t1 ++ " vs DB2=" ++ t2

/-- SQLiteComparator.compare_schemas: emit one message per column name only in
DB1, then per name only in DB2, then per common name with differing
descriptors; schemas match iff no message was emitted. -/
def compare_schemas (schema1 schema2 : List Col) : Bool × List String :=
  let d1 := schemaDict schema1
  let d2 := schemaDict schema2
  let diffs1 := d1.filterMap (fun kv =>
    if (d2.lookup kv.1).isNone then some (msgOnlyIn1 kv.1) else none)
  let diffs2 := d2.filterMap (fun kv =>
    if (d1.lookup kv.1).isNone then some (msgOnlyIn2 kv.1) else none)
  let diffs3 := d1.filterMap (fun kv =>
    match d2.lookup kv.1 with
    | some c2 => if kv.2 ≠ c2 then some (msgDiffDef kv.1 kv.2.ctype c2.ctype) else none
    | none => none)
  let differences := diffs1 ++ diffs2 ++ diffs3
  (differences.length == 0, differences)

lemma dictUpd_append {α : Type} (d : List (String × α)) (k : String) (v : α)
    (h : ∀ p ∈ d, p.1 ≠ k) : dictUpd d k v = d ++ [(k, v)] := by
  have hany : d.any (fun kv => kv.1 == k) = false := by
    rw [List.any_eq_false]
    intro p hp
    simpa using h p hp
  unfold dictUpd
  rw [hany]
  simp

lemma schemaDict_aux (s : List Col) : ∀ acc : List (String × Col),
    (acc.map Prod.fst ++ s.map Col.name).Nodup →
    s.foldl (fun d c => dictUpd d c.name c) acc = acc ++ s.map (fun c => (c.name, c)) := by
  induction s with
  | nil => intro acc _; simp
  | cons c s ih =>
    intro acc h
    have hknotin : c.name ∉ acc.map Prod.fst := by
      have hd := List.disjoint_of_nodup_append h
      intro hmem
      exact hd hmem (by simp)
    have hupd : dictUpd acc c.name c = acc ++ [(c.name, c)] := by
      apply dictUpd_append
      intro p hp hpk
      exact hknotin (hpk ▸ List.mem_map_of_mem Prod.fst hp)
    rw [List.foldl_cons, hupd, ih]
    · simp
    · have heq : (acc ++ [(c.name, c)]).map Prod.fst ++ s.map Col.name =
          acc.map Prod.fst ++ c.name :: s.map Col.name := by simp
      rw [heq]
      exact h

lemma schemaDict_of_nodup (s : List Col) (h : (s.map Col.name).Nodup) :
    schemaDict s = s.map (fun c => (c.name, c)) := by
  have := schemaDict_aux s [] (by simpa using h)
  simpa [schemaDict] using this

lemma lookup_map_pair (s : List Col) (n : String) :
    (s.map (fun c => (c.name, c))).lookup n = s.find? (fun c => n == c.name) := by
  induction s with
  | nil => rfl
  | cons c s ih =>
    cases hc : (n == c.name) <;> simp [List.lookup, List.find?, hc, ih]

lemma find?_name_isSome (s : List Col) (n : String) :
    (s.find? (fun c => n == c.name)).isSome = true ↔ ∃ c ∈ s, c.name = n := by
  rw [List.find?_isSome]
  constructor
  · rintro ⟨c, hc, hb⟩
    exact ⟨c, hc, (beq_iff_eq.mp hb).symm⟩
  · rintro ⟨c, hc, hn⟩
    exact ⟨c, hc, beq_iff_eq.mpr hn.symm⟩

lemma find?_name_eq_some {s : List Col} {n : String} {c : Col}
    (h : s.find? (fun c => n == c.name) = some c) : c ∈ s ∧ c.name = n := by
  constructor
  · exact List.mem_of_find?_eq_some h
  · have hp := @List.find?_some Col (fun c => n == c.name) c s h
    exact (beq_iff_eq.mp hp).symm

/-- The match verdict of compare_schemas, spelled out declaratively: the two
schemas carry the same column names and agree on the full descriptor of every
shared name. -/
def matchesProp (s1 s2 : List Col) : Prop :=
  (∀ c1 ∈ s1, ∃ c2 ∈ s2, c2.name = c1.name) ∧
  (∀ c2 ∈ s2, ∃ c1 ∈ s1, c1.name = c2.name) ∧
  (∀ c1 ∈ s1, ∀ c2 ∈ s2, c2.name = c1.name → c1 = c2)

lemma compare_schemas_fst_iff (s1 s2 : List Col)
    (h1 : (s1.map Col.name).Nodup) (h2 : (s2.map Col.name).Nodup) :
    (compare_schemas s1 s2).1 = true ↔ matchesProp s1 s2 := by
  unfold compare_schemas matchesProp
  rw [schemaDict_of_nodup s1 h1, schemaDict_of_nodup s2 h2]
  simp only [beq_iff_eq, List.length_eq_zero, List.append_eq_nil,
    List.filterMap_eq_nil_iff, List.mem_map, forall_exists_index, and_imp,
    lookup_map_pair]
  constructor
  · rintro ⟨⟨ha, hb⟩, hc⟩
    refine ⟨?_, ?_, ?_⟩
    · intro c1 hc1
      have := ha (c1.name, c1) c1 hc1 rfl
      rw [ite_eq_right_iff] at this
      by_cases hs : (s2.find? (fun c => c1.name == c.name)).isSome = true
      · exact (find?_name_isSome s2 c1.name).mp hs
      · exfalso
        have hnone : (s2.find? (fun c => c1.name == c.name)).isNone = true := by
          cases hfind : s2.find? (fun c => c1.name == c.name)
          · rfl
          · exact absurd (by rw [hfind]; rfl) hs
        exact Option.some_ne_none _ (this hnone)
    · intro c2 hc2
      have := hb (c2.name, c2) c2 hc2 rfl
      rw [ite_eq_right_iff] at this
      by_cases hs : (s1.find? (fun c => c2.name == c.name)).isSome = true
      · exact (find?_name_isSome s1 c2.name).mp hs
      · exfalso
        have hnone : (s1.find? (fun c => c2.name == c.name)).isNone = true := by
          cases hfind : s1.find? (fun c => c2.name == c.name)
          · rfl
          · exact absurd (by rw [hfind]; rfl) hs
        exact Option.some_ne_none _ (this hnone)
    · intro c1 hc1 c2 hc2 hname
      have hfind : s2.find? (fun c => c1.name == c.name) = some c2 := by
        cases hfind : s2.find? (fun c => c1.name == c.name) with
        | none =>
          exfalso
          have : ∃ c ∈ s2, c.name = c1.name := ⟨c2, hc2, hname⟩
          have hsome := (find?_name_isSome s2 c1.name).mpr this
          rw [hfind] at hsome
          exact Bool.false_ne_true hsome
        | some c2' =>
          obtain ⟨hmem', hname'⟩ := find?_name_eq_some hfind
          have : c2' = c2 :=
            List.inj_on_of_nodup_map h2 hmem' hc2 (by rw [hname', hname])
          rw [this]
      have := hc (c1.name, c1) c1 hc1 rfl
      rw [hfind] at this
      by_contra hne
      simp [hne] at this
  · rintro ⟨ha, hb, hcc⟩
    refine ⟨⟨?_, ?_⟩, ?_⟩
    · rintro kv c1 hc1 rfl
      obtain ⟨c2, hc2, hname⟩ := ha c1 hc1
      have hsome := (find?_name_isSome s2 c1.name).mpr ⟨c2, hc2, hname⟩
      rw [ite_eq_right_iff]
      intro hnone
      rw [Option.isNone_iff_eq_none] at hnone
      rw [hnone] at hsome
      exact absurd hsome (by simp)
    · rintro kv c2 hc2 rfl
      obtain ⟨c1, hc1, hname⟩ := hb c2 hc2
      have hsome := (find?_name_isSome s1 c2.name).mpr ⟨c1, hc1, hname⟩
      rw [ite_eq_right_iff]
      intro hnone
      rw [Option.isNone_iff_eq_none] at hnone
      rw [hnone] at hsome
      exact absurd hsome (by simp)
    · rintro kv c1 hc1 rfl
      cases hfind : s2.find? (fun c => c1.name == c.name) with
      | none => rfl
      | some c2 =>
        obtain ⟨hmem, hname⟩ := find?_name_eq_some hfind
        have : c1 = c2 := hcc c1 hc1 c2 hmem hname
        simp [this]

lemma matchesProp_perm {s1 s2 s1' s2' : List Col}
    (hp1 : s1.Perm s1') (hp2 : s2.Perm s2') :
    matchesProp s1 s2 ↔ matchesProp s1' s2' := by
  unfold matchesProp
  simp only [hp1.mem_iff, hp2.mem_iff]

/-- Claim C1: for schemas as fetched (column names are distinct within a
table), permuting the column order of either input to compare_schemas never
changes the matches verdict, and the matches verdict is true iff the emitted
difference list is empty. -/
theorem c1_schema_order_invariance (s1 s2 s1' s2' : List Col)
    (h1 : (s1.map Col.name).Nodup) (h2 : (s2.map Col.name).Nodup)
    (hp1 : s1.Perm s1') (hp2 : s2.Perm s2') :
    (compare_schemas s1' s2').1 = (compare_schemas s1 s2).1 ∧
    ((compare_schemas s1 s2).1 = true ↔ (compare_schemas s1 s2).2 = []) := by
  have h1' : (s1'.map Col.name).Nodup := ((hp1.map Col.name).nodup_iff).mp h1
  have h2' : (s2'.map Col.name).Nodup := ((hp2.map Col.name).nodup_iff).mp h2
  constructor
  · rw [Bool.eq_iff_iff, compare_schemas_fst_iff s1' s2' h1' h2',
      compare_schemas_fst_iff s1 s2 h1 h2]
    exact (matchesProp_perm hp1 hp2).symm
  · unfold compare_schemas
    simp [List.length_eq_zero]

/-- Witness for C1 at two concrete two-column schemas with swapped order. -/
theorem c1_witness :
    (compare_schemas [⟨1, "b", "TEXT", 0, none, 0⟩, ⟨0, "a", "INT", 0, none, 1⟩]
        [⟨0, "a", "INT", 0, none, 1⟩]).1 =
      (compare_schemas [⟨0, "a", "INT", 0, none, 1⟩, ⟨1, "b", "TEXT", 0, none, 0⟩]
        [⟨0, "a", "INT", 0, none, 1⟩]).1 ∧
    ((compare_schemas [⟨0, "a", "INT", 0, none, 1⟩, ⟨1, "b", "TEXT", 0, none, 0⟩]
        [⟨0, "a", "INT", 0, none, 1⟩]).1 = true ↔
      (compare_schemas [⟨0, "a", "INT", 0, none, 1⟩, ⟨1, "b", "TEXT", 0, none, 0⟩]
        [⟨0, "a", "INT", 0, none, 1⟩]).2 = []) :=
  c1_schema_order_invariance _ _ _ _ (by decide) (by decide) (by decide) (by decide)

/-- The stored content of one table. -/
structure TableData where
  schema : List Col
  rows : List Row
deriving DecidableEq

/-- The current state of one database: tables keyed by name.  Queries read
this state; an enumeration that happened before a concurrent table drop is
modelled by passing the stale listing explicitly to compareDatabasesFrom. -/
abbrev Db := List (String × TableData)

/-- get_table_names: the set of user table names of a database. -/
def get_table_names (db : Db) : Finset String := (db.map Prod.fst).toFinset

/-- get_table_schema: PRAGMA table_info yields the column list, and the empty
list when the table does not exist (the PRAGMA does not raise). -/
def get_table_schema (db : Db) (t : String) : List Col :=
  match db.lookup t with
  | some td => td.schema
  | none => []

/-- get_row_count: SELECT COUNT raises when the table does not exist. -/
def get_row_count (db : Db) (t : String) : Except String Nat :=
  match db.lookup t with
  | some td => .ok td.rows.length
  | none => .error ("no such table: " ++ t)

/-- get_table_data: SELECT star raises when the table does not exist. -/
def get_table_data (db : Db) (t : String) : Except String (List Row) :=
  match db.lookup t with
  | some td => .ok td.rows
  | none => .error ("no such table: " ++ t)

/-- The TableComparison dataclass.  data_differences is none while the field
still holds its default empty dict, and some diff once compare_table_data has
run; the exists flags keep their dataclass defaults (True) because no code
path ever assigns them. -/
structure TableComparison where
  table_name : String
  exists_in_db1 : Bool
  exists_in_db2 : Bool
  schema_match : Bool
  row_count_db1 : Nat
  row_count_db2 : Nat
  schema_diff : List String
  data_differences : Option DataDiff
  is_identical : Bool
deriving DecidableEq

/-- The row-data part of compare_table: only when the schemas match are the
two row sets fetched and handed to compare_table_data; a mismatch leaves the
differences dict empty (none). -/
def compare_table_dd (db1 db2 : Db) (t : String) : Except String (Option DataDiff) :=
  if (compare_schemas (get_table_schema db1 t) (get_table_schema db2 t)).1 then
    match get_table_data db1 t, get_table_data db2 t with
    | .ok data1, .ok data2 => .ok (some (compare_table_data data1 data2))
    | .error e, _ => .error e
    | _, .error e => .error e
  else .ok none

/-- SQLiteComparator.compare_table: fetch and compare schemas, fetch both row
counts, diff the data only on schema match, then derive the per-table
identical verdict.  There is no exception handling in the source, so any
failing query propagates as an error. -/
def compare_table (db1 db2 : Db) (t : String) : Except String TableComparison :=
  match get_row_count db1 t with
  | .error e => .error e
  | .ok count1 =>
    match get_row_count db2 t with
    | .error e => .error e
    | .ok count2 =>
      match compare_table_dd db1 db2 t with
      | .error e => .error e
      | .ok dopt =>
        .ok { table_name := t
              exists_in_db1 := true
              exists_in_db2 := true
              schema_match := (compare_schemas (get_table_schema db1 t)
                (get_table_schema db2 t)).1
              row_count_db1 := count1
              row_count_db2 := count2
              schema_diff := (compare_schemas (get_table_schema db1 t)
                (get_table_schema db2 t)).2
              data_differences := dopt
              is_identical := (compare_schemas (get_table_schema db1 t)
                  (get_table_schema db2 t)).1 &&
                (count1 == count2 &&
                  (dopt.map (fun d => d.is_data_identical)).getD false) }

/-- True on ok, false on error. -/
def exceptIsOk {α : Type} (e : Except String α) : Bool :=
  match e with
  | .ok _ => true
  | .error _ => false

/-- Claim C4: when compare_table returns a result, the row differ ran (the
data_differences field is populated) exactly when the schemas matched, and a
schema mismatch forces the identical verdict to false. -/
theorem c4_schema_gates_row_diff (db1 db2 : Db) (t : String) (c : TableComparison)
    (h : compare_table db1 db2 t = Except.ok c) :
    c.data_differences.isSome = c.schema_match ∧
    (c.schema_match = false → c.is_identical = false) := by
  cases hl1 : db1.lookup t with
  | none =>
    exfalso
    unfold compare_table get_row_count at h
    rw [hl1] at h
    simp at h
  | some td1 =>
    cases hl2 : db2.lookup t with
    | none =>
      exfalso
      unfold compare_table get_row_count at h
      rw [hl1, hl2] at h
      simp at h
    | some td2 =>
      unfold compare_table get_row_count compare_table_dd get_table_data at h
      rw [hl1, hl2] at h
      by_cases hm : (compare_schemas (get_table_schema db1 t)
          (get_table_schema db2 t)).1 = true
      · rw [if_pos hm] at h
        simp only [Except.ok.injEq] at h
        rw [← h]
        simp [hm]
      · rw [if_neg hm] at h
        simp only [Except.ok.injEq] at h
        rw [← h]
        rw [Bool.not_eq_true] at hm
        simp [hm]

instance : Inhabited TableComparison :=
  ⟨{ table_name := ""
     exists_in_db1 := true
     exists_in_db2 := true
     schema_match := true
     row_count_db1 := 0
     row_count_db2 := 0
     schema_diff := []
     data_differences := none
     is_identical := true }⟩

/-- A one-table database used as concrete input by witnesses. -/
def exampleDb : Db := [("t", ⟨[⟨0, "a", "TEXT", 0, none, 1⟩], [[("a", Value.text "x")]]⟩)]

/-- Witness for C4: the example database compared with itself. -/
theorem c4_witness :
    ((compare_table exampleDb exampleDb "t").toOption.getD default).data_differences.isSome =
      ((compare_table exampleDb exampleDb "t").toOption.getD default).schema_match ∧
    (((compare_table exampleDb exampleDb "t").toOption.getD default).schema_match = false →
      ((compare_table exampleDb exampleDb "t").toOption.getD default).is_identical = false) :=
  c4_schema_gates_row_diff exampleDb exampleDb "t" _ rfl

/-- The DatabaseComparison dataclass.  The three table-name collections are
Python sets; the comparison mapping is a dict keyed by table name. -/
structure DatabaseComparison where
  db1_path : String
  db2_path : String
  tables_only_in_db1 : Finset String
  tables_only_in_db2 : Finset String
  common_tables : Finset String
  table_comparisons : List (String × TableComparison)
  is_identical : Bool

instance : Inhabited DatabaseComparison :=
  ⟨{ db1_path := ""
     db2_path := ""
     tables_only_in_db1 := ∅
     tables_only_in_db2 := ∅
     common_tables := ∅
     table_comparisons := []
     is_identical := true }⟩

/-- The loop over the common tables in compare_databases: compare each table,
store the result in the mapping, and lower the overall flag on any
non-identical table.  The source has no exception handling, so the first
failing query aborts the whole run. -/
def compareTablesFold (db1 db2 : Db) :
    List String → List (String × TableComparison) → Bool →
    Except String (List (String × TableComparison) × Bool)
  | [], acc, flag => .ok (acc, flag)
  | t :: rest, acc, flag =>
    match compare_table db1 db2 t with
    | .error e => .error e
    | .ok tc => compareTablesFold db1 db2 rest (dictUpd acc t tc) (flag && tc.is_identical)

/-- compare_databases, parametrized by the two table listings obtained during
enumeration: the listings are classified into only-in-A, only-in-B and
common, each common table is compared, and a table on one side only forces
the overall verdict to false.  The iteration order over the common set is
unspecified in Python; the embedding fixes the listing order.  Passing a
listing older than the current database state models a table dropped between
enumeration and query. -/
def compareDatabasesFrom (p1 p2 : String) (db1 db2 : Db)
    (tables1 tables2 : List String) : Except String DatabaseComparison :=
  match compareTablesFold db1 db2 (tables1.filter (fun t => t ∈ tables2)) [] true with
  | .error e => .error e
  | .ok (m, flag) =>
    .ok { db1_path := p1
          db2_path := p2
          tables_only_in_db1 := (tables1.filter (fun t => t ∉ tables2)).toFinset
          tables_only_in_db2 := (tables2.filter (fun t => t ∉ tables1)).toFinset
          common_tables := (tables1.filter (fun t => t ∈ tables2)).toFinset
          table_comparisons := m
          is_identical :=
            if tables1.filter (fun t => t ∉ tables2) ≠ [] ∨
               tables2.filter (fun t => t ∉ tables1) ≠ [] then false
            else flag }

/-- The table listing get_table_names produces: catalog names collected into
a set (modelled as a deduplicated list). -/
def listTableNames (db : Db) : List String := (db.map Prod.fst).dedup

/-- SQLiteComparator.compare_databases: enumerate both table sets from the
current states, classify, and compare every common table. -/
def compare_databases (p1 p2 : String) (db1 db2 : Db) :
    Except String DatabaseComparison :=
  compareDatabasesFrom p1 p2 db1 db2 (listTableNames db1) (listTableNames db2)

/-- Whether the per-table comparison of t succeeds and reports identical. -/
def tableOkIdentical (db1 db2 : Db) (t : String) : Bool :=
  match compare_table db1 db2 t with
  | .ok tc => tc.is_identical
  | .error _ => false

lemma compareTablesFold_spec (db1 db2 : Db) :
    ∀ (l : List String) (acc : List (String × TableComparison)) (flag : Bool)
      (m : List (String × TableComparison)) (f : Bool),
      l.Nodup → (∀ p ∈ acc, p.1 ∉ l) →
      compareTablesFold db1 db2 l acc flag = .ok (m, f) →
      ((∀ p ∈ m, p ∈ acc ∨ (p.1 ∈ l ∧ compare_table db1 db2 p.1 = .ok p.2)) ∧
       (∀ p ∈ acc, p ∈ m) ∧
       (∀ t ∈ l, ∃ tc, (t, tc) ∈ m) ∧
       f = (flag && l.all (tableOkIdentical db1 db2))) := by
  intro l
  induction l with
  | nil =>
    intro acc flag m f _ _ h
    unfold compareTablesFold at h
    simp only [Except.ok.injEq, Prod.mk.injEq] at h
    obtain ⟨rfl, rfl⟩ := h
    refine ⟨fun p hp => Or.inl hp, fun p hp => hp, fun t ht => absurd ht (List.not_mem_nil t), ?_⟩
    simp
  | cons t rest ih =>
    intro acc flag m f hnd hdisj h
    unfold compareTablesFold at h
    cases hct : compare_table db1 db2 t with
    | error e => rw [hct] at h; exact absurd h (by simp)
    | ok tc =>
      rw [hct] at h
      simp only [] at h
      have hupd : dictUpd acc t tc = acc ++ [(t, tc)] := by
        apply dictUpd_append
        intro p hp
        have := hdisj p hp
        intro hpk
        exact this (hpk ▸ List.mem_cons_self t rest)
      rw [hupd] at h
      have hndrest : rest.Nodup := (List.nodup_cons.mp hnd).2
      have htnotin : t ∉ rest := (List.nodup_cons.mp hnd).1
      have hdisj' : ∀ p ∈ acc ++ [(t, tc)], p.1 ∉ rest := by
        intro p hp
        rcases List.mem_append.mp hp with hp | hp
        · intro hmem
          exact hdisj p hp (List.mem_cons_of_mem t hmem)
        · rcases List.mem_singleton.mp hp with rfl
          exact htnotin
      obtain ⟨ha, hb, hc, hf⟩ := ih (acc ++ [(t, tc)]) (flag && tc.is_identical) m f
        hndrest hdisj' h
      refine ⟨?_, ?_, ?_, ?_⟩
      · intro p hp
        rcases ha p hp with hp' | hp'
        · rcases List.mem_append.mp hp' with hp'' | hp''
          · exact Or.inl hp''
          · rcases List.mem_singleton.mp hp'' with rfl
            exact Or.inr ⟨List.mem_cons_self t rest, hct⟩
        · exact Or.inr ⟨List.mem_cons_of_mem t hp'.1, hp'.2⟩
      · intro p hp
        exact hb p (List.mem_append.mpr (Or.inl hp))
      · intro t' ht'
        rcases List.mem_cons.mp ht' with rfl | ht''
        · exact ⟨tc, hb (t', tc) (List.mem_append.mpr (Or.inr (List.mem_singleton.mpr rfl)))⟩
        · exact hc t' ht''
      · rw [hf, List.all_cons]
        have hid : tableOkIdentical db1 db2 t = tc.is_identical := by
          unfold tableOkIdentical
          rw [hct]
        rw [hid, Bool.and_assoc]

/-- Claim C6: whenever compare_databases delivers a result, its overall
identical verdict is true exactly when no table is on one side only and every
stored per-table comparison is identical (so a single asymmetric table or
non-identical table forces it to false, and nothing can set it back to true),
and the stored per-table comparisons cover exactly the common tables (a table
on one side only is never individually compared). -/
theorem c6_overall_verdict (p1 p2 : String) (db1 db2 : Db) (c : DatabaseComparison)
    (h : compare_databases p1 p2 db1 db2 = Except.ok c) :
    (c.is_identical = true ↔
      (c.tables_only_in_db1 = ∅ ∧ c.tables_only_in_db2 = ∅ ∧
       ∀ p ∈ c.table_comparisons, p.2.is_identical = true)) ∧
    (∀ p ∈ c.table_comparisons, p.1 ∈ c.common_tables) ∧
    (∀ t ∈ c.common_tables, ∃ tc, (t, tc) ∈ c.table_comparisons) := by
  unfold compare_databases compareDatabasesFrom at h
  cases hf : compareTablesFold db1 db2
      ((listTableNames db1).filter (fun t => t ∈ listTableNames db2)) [] true with
  | error e => rw [hf] at h; exact absurd h (by simp)
  | ok mf =>
    obtain ⟨m, f⟩ := mf
    rw [hf] at h
    simp only [Except.ok.injEq] at h
    have hnodup : ((listTableNames db1).filter (fun t => t ∈ listTableNames db2)).Nodup :=
      (List.nodup_dedup _).filter _
    obtain ⟨ha, _, hc, hfl⟩ := compareTablesFold_spec db1 db2 _ [] true m f hnodup
      (by simp) hf
    rw [← h]
    refine ⟨?_, ?_, ?_⟩
    · simp only []
      constructor
      · intro hid
        by_cases hasym : (listTableNames db1).filter (fun t => t ∉ listTableNames db2) ≠ [] ∨
            (listTableNames db2).filter (fun t => t ∉ listTableNames db1) ≠ []
        · rw [if_pos hasym] at hid
          exact absurd hid (by simp)
        · rw [if_neg hasym] at hid
          push_neg at hasym
          refine ⟨by rw [hasym.1]; rfl, by rw [hasym.2]; rfl, ?_⟩
          intro p hp
          rcases ha p hp with hp' | hp'
          · exact absurd hp' (List.not_mem_nil p)
          · have hall := hfl ▸ hid
            rw [Bool.true_and, List.all_eq_true] at hall
            have := hall p.1 hp'.1
            unfold tableOkIdentical at this
            rw [hp'.2] at this
            exact this
      · rintro ⟨h1, h2, hall⟩
        have he1 : (listTableNames db1).filter (fun t => t ∉ listTableNames db2) = [] := by
          have := h1
          rwa [← List.toFinset_eq_empty_iff]
        have he2 : (listTableNames db2).filter (fun t => t ∉ listTableNames db1) = [] := by
          have := h2
          rwa [← List.toFinset_eq_empty_iff]
        rw [if_neg (by push_neg; exact ⟨he1, he2⟩)]
        rw [hfl, Bool.true_and, List.all_eq_true]
        intro t ht
        obtain ⟨tc, htc⟩ := hc t ht
        unfold tableOkIdentical
        rcases ha (t, tc) htc with hmem | hmem
        · exact absurd hmem (List.not_mem_nil _)
        · rw [hmem.2]
          exact hall (t, tc) htc
    · intro p hp
      rcases ha p hp with hp' | hp'
      · exact absurd hp' (List.not_mem_nil p)
      · simp only [List.mem_toFinset]
        exact hp'.1
    · intro t ht
      simp only [List.mem_toFinset] at ht
      exact hc t ht

/-- Witness for C6: the example database compared with itself. -/
theorem c6_witness :
    (((compare_databases "a.db" "b.db" exampleDb exampleDb).toOption.getD
        default).is_identical = true ↔
      (((compare_databases "a.db" "b.db" exampleDb exampleDb).toOption.getD
          default).tables_only_in_db1 = ∅ ∧
       ((compare_databases "a.db" "b.db" exampleDb exampleDb).toOption.getD
          default).tables_only_in_db2 = ∅ ∧
       ∀ p ∈ ((compare_databases "a.db" "b.db" exampleDb exampleDb).toOption.getD
          default).table_comparisons, p.2.is_identical = true)) ∧
    (∀ p ∈ ((compare_databases "a.db" "b.db" exampleDb exampleDb).toOption.getD
        default).table_comparisons,
      p.1 ∈ ((compare_databases "a.db" "b.db" exampleDb exampleDb).toOption.getD
        default).common_tables) ∧
    (∀ t ∈ ((compare_databases "a.db" "b.db" exampleDb exampleDb).toOption.getD
        default).common_tables,
      ∃ tc, (t, tc) ∈ ((compare_databases "a.db" "b.db" exampleDb exampleDb).toOption.getD
        default).table_comparisons) :=
  c6_overall_verdict "a.db" "b.db" exampleDb exampleDb _ rfl

lemma compare_table_error_of_missing (db1 db2 : Db) (t : String)
    (h : db1.lookup t = none ∨ db2.lookup t = none) :
    exceptIsOk (compare_table db1 db2 t) = false := by
  rcases h with h | h
  · unfold compare_table get_row_count
    rw [h]
    rfl
  · cases hl1 : db1.lookup t with
    | none =>
      unfold compare_table get_row_count
      rw [hl1]
      rfl
    | some td1 =>
      unfold compare_table get_row_count
      rw [hl1, h]
      rfl

lemma compareTablesFold_error_of_mem (db1 db2 : Db) (t : String)
    (ht : exceptIsOk (compare_table db1 db2 t) = false) :
    ∀ (l : List String) (acc : List (String × TableComparison)) (flag : Bool),
      t ∈ l → exceptIsOk (compareTablesFold db1 db2 l acc flag) = false := by
  intro l
  induction l with
  | nil =>
    intro acc flag hmem
    exact absurd hmem (List.not_mem_nil t)
  | cons a rest ih =>
    intro acc flag hmem
    unfold compareTablesFold
    cases hct : compare_table db1 db2 a with
    | error e => rfl
    | ok tc =>
      rcases List.mem_cons.mp hmem with rfl | hmem'
      · rw [hct] at ht
        exact absurd ht (by simp [exceptIsOk])
      · exact ih _ _ hmem'

/-- Claim C2, counterexample: database B held table t when enumeration
listed it, but the table is gone from the current state (modelled by the
empty state) when it is queried; the whole comparison run then returns an
error instead of one complete result with a per-table error entry. -/
theorem c2_counterexample :
    exceptIsOk (compareDatabasesFrom "a.db" "b.db" exampleDb [] ["t"] ["t"]) = false := by
  have htab := compare_table_error_of_missing exampleDb [] "t" (Or.inr rfl)
  have hfold := compareTablesFold_error_of_mem exampleDb [] "t" htab
    ((["t"] : List String).filter (fun s => s ∈ (["t"] : List String))) [] true
    (by simp)
  unfold compareDatabasesFrom
  cases hf : compareTablesFold exampleDb []
      ((["t"] : List String).filter (fun s => s ∈ (["t"] : List String))) [] true with
  | error e => rfl
  | ok mf =>
    rw [hf] at hfold
    exact absurd hfold (by simp [exceptIsOk])

/-- Claim C2, amended: when a table t listed during enumeration on both sides
no longer exists in the queried state of database B, there is no local
recovery: the per-table comparison itself returns an error, and the whole
comparison run aborts with that error, so the caller receives no
DatabaseComparisonResult (no per-table error entry, no lowered exists flag). -/
theorem c2_amended_no_recovery (p1 p2 : String) (db1 db2 : Db)
    (tables1 tables2 : List String) (t : String)
    (h1 : t ∈ tables1) (h2 : t ∈ tables2) (hmiss : db2.lookup t = none) :
    exceptIsOk (compare_table db1 db2 t) = false ∧
    exceptIsOk (compareDatabasesFrom p1 p2 db1 db2 tables1 tables2) = false := by
  have htab := compare_table_error_of_missing db1 db2 t (Or.inr hmiss)
  refine ⟨htab, ?_⟩
  have hmem : t ∈ tables1.filter (fun s => s ∈ tables2) := by
    rw [List.mem_filter]
    exact ⟨h1, by simpa using h2⟩
  have hfold := compareTablesFold_error_of_mem db1 db2 t htab
    (tables1.filter (fun s => s ∈ tables2)) [] true hmem
  unfold compareDatabasesFrom
  cases hf : compareTablesFold db1 db2 (tables1.filter (fun s => s ∈ tables2)) [] true with
  | error e => rfl
  | ok mf =>
    rw [hf] at hfold
    exact absurd hfold (by simp [exceptIsOk])

/-- Witness for C2 amended, at the example database versus an emptied state. -/
theorem c2_amended_witness :
    exceptIsOk (compare_table exampleDb [] "t") = false ∧
    exceptIsOk (compareDatabasesFrom "a.db" "b.db" exampleDb [] ["t"] ["t"]) = false :=
  c2_amended_no_recovery "a.db" "b.db" exampleDb [] ["t"] ["t"] "t"
    (by simp) (by simp) rfl

/-- Python str applied to a scalar as stored in a row.  The rendering of
floats and blobs is an abstraction of CPython repr; every analyzer theorem
below is uniform in this function, and the concrete inputs used by
counterexamples and witnesses only render None, integers and strings, whose
Python forms these equations match exactly. -/
def pyStr : Value → String
  | .null => "None"
  | .int n => toString n
  | .real q => toString q
  | .text s => s
  | .blob bs => "bytes:" ++ toString bs
  | .unhashable tag => tag

/-- Python type(v).__name__ for a stored scalar. -/
def typeName : Value → String
  | .null => "NoneType"
  | .int _ => "int"
  | .real _ => "float"
  | .text _ => "str"
  | .blob _ => "bytes"
  | .unhashable tag => tag

/-- create_lookup_key of analyze_row_differences: pipe-join the stringified
row values, rendering None as the literal NULL token. -/
def create_lookup_key (row : Row) : String :=
  String.intercalate "|"
    (row.map (fun kv => match kv.2 with | .null => "NULL" | v => pyStr v))

/-- The lookup dict comprehension of analyze_row_differences: rows keyed by
their pipe-joined string representation, later duplicates overriding. -/
def buildRowDict (data : List Row) : List (String × Row) :=
  data.foldl (fun d row => dictUpd d (create_lookup_key row) row) []

/-- row.get(col) of Python: a missing column yields None. -/
def rowGetVal (row : Row) (col : String) : Value :=
  (row.lookup col).getD Value.null

/-- One column position counts as a type mismatch when the two values print
identically but carry different runtime types. -/
def colHit (row1 row2 : Row) (col : String) : Bool :=
  pyStr (rowGetVal row1 col) == pyStr (rowGetVal row2 col) &&
    typeName (rowGetVal row1 col) != typeName (rowGetVal row2 col)

/-- One recorded type-mismatch sample. -/
structure TypeMismatch where
  column : String
  value : String
  type_db1 : String
  type_db2 : String
  sample_row : List (String × String)
deriving DecidableEq

def mkMismatch (row1 row2 : Row) (col : String) : TypeMismatch :=
  { column := col
    value := pyStr (rowGetVal row1 col)
    type_db1 := typeName (rowGetVal row1 col)
    type_db2 := typeName (rowGetVal row2 col)
    sample_row := row1.map (fun kv => (kv.1, (pyStr kv.2).take 50)) }

/-- The inner column loop of the type-mismatch pass: record a sample per
mismatching column while fewer than max_samples samples are stored. -/
def innerFold (row1 row2 : Row) (N : Nat) (cols : List String)
    (acc : List TypeMismatch) : List TypeMismatch :=
  cols.foldl (fun acc2 col =>
    if colHit row1 row2 col ∧ acc2.length < N then acc2 ++ [mkMismatch row1 row2 col]
    else acc2) acc

/-- The outer loop of the type-mismatch pass over the first entries of the
side-A lookup: rows whose key also appears on side B are column-checked. -/
def scanTypeMismatches (pfx : List (String × Row)) (dict2 : List (String × Row))
    (cols : List String) (N : Nat) : List TypeMismatch :=
  pfx.foldl (fun acc kr =>
    match dict2.lookup kr.1 with
    | none => acc
    | some row2 => innerFold kr.2 row2 N cols acc) []

/-- Lookup keys present on side A and absent from side B. -/
def onlyKeys (dataA dataB : List Row) : List String :=
  ((buildRowDict dataA).map Prod.fst).filter
    (fun k => ((buildRowDict dataB).lookup k).isNone)

/-- A row snapshot for the content-mismatch samples: values stringified and
truncated, None rendered as NULL. -/
def sampleRow (row : Row) : List (String × String) :=
  row.map (fun kv => (kv.1, match kv.2 with | .null => "NULL" | v => (pyStr v).take 100))

/-- The analysis dict produced by analyze_row_differences. -/
structure RowAnalysis where
  type_mismatches : List TypeMismatch
  value_mismatches : List String
  sample_rows_db1_only : List (List (String × String))
  sample_rows_db2_only : List (List (String × String))
  is_type_only_difference : Bool
deriving DecidableEq

def emptyAnalysis : RowAnalysis :=
  { type_mismatches := []
    value_mismatches := []
    sample_rows_db1_only := []
    sample_rows_db2_only := []
    is_type_only_difference := false }

/-- SQLiteComparator.analyze_row_differences.  Either input being empty short
circuits to the empty analysis.  Otherwise the type-mismatch pass scans only
the first max_samples * 2 entries of the side-A lookup, content samples are
bounded by max_samples, and the type-only flag asks for a nonempty mismatch
sample list together with no one-sided keys.  The source computes each
intermediate value once; the repeated subterms here denote the same values.
The source defaults max_samples to 5; here it is always passed explicitly. -/
def analyze_row_differences (data1 data2 : List Row) (_table_name : String)
    (max_samples : Nat) : RowAnalysis :=
  if data1.isEmpty ∨ data2.isEmpty then emptyAnalysis
  else
    { type_mismatches := scanTypeMismatches ((buildRowDict data1).take (max_samples * 2))
        (buildRowDict data2) ((data1.headD []).map Prod.fst) max_samples
      value_mismatches := []
      sample_rows_db1_only := ((onlyKeys data1 data2).take max_samples).map
        (fun k => sampleRow (((buildRowDict data1).lookup k).getD []))
      sample_rows_db2_only := ((onlyKeys data2 data1).take max_samples).map
        (fun k => sampleRow (((buildRowDict data2).lookup k).getD []))
      is_type_only_difference :=
        !(scanTypeMismatches ((buildRowDict data1).take (max_samples * 2))
            (buildRowDict data2) ((data1.headD []).map Prod.fst) max_samples).isEmpty &&
          ((onlyKeys data1 data2).isEmpty && (onlyKeys data2 data1).isEmpty) }

/-- Whether a side-A lookup entry admits a type mismatch against side B. -/
def matchedHit (dict2 : List (String × Row)) (cols : List String)
    (kr : String × Row) : Bool :=
  match dict2.lookup kr.1 with
  | none => false
  | some row2 => cols.any (fun col => colHit kr.2 row2 col)

/-- A type mismatch exists among the first k entries of the side-A lookup
whose key also appears on side B. -/
def existsTypeMismatchUpTo (data1 data2 : List Row) (k : Nat) : Bool :=
  ((buildRowDict data1).take k).any
    (matchedHit (buildRowDict data2) ((data1.headD []).map Prod.fst))

/-- A type mismatch exists among all matched lookup keys, as the claim reads
it (no prefix bound). -/
def existsTypeMismatch (data1 data2 : List Row) : Bool :=
  existsTypeMismatchUpTo data1 data2 (buildRowDict data1).length

lemma innerFold_length_le (row1 row2 : Row) (N : Nat) (cols : List String) :
    ∀ acc, acc.length ≤ (innerFold row1 row2 N cols acc).length := by
  induction cols with
  | nil => intro acc; simp [innerFold]
  | cons c cols ih =>
    intro acc
    unfold innerFold
    rw [List.foldl_cons]
    by_cases hc : colHit row1 row2 c ∧ acc.length < N
    · rw [if_pos hc]
      calc acc.length ≤ (acc ++ [mkMismatch row1 row2 c]).length := by simp
        _ ≤ _ := ih (acc ++ [mkMismatch row1 row2 c])
    · rw [if_neg hc]
      exact ih acc

lemma innerFold_no_hit (row1 row2 : Row) (N : Nat) (cols : List String)
    (h : ∀ c ∈ cols, colHit row1 row2 c = false) :
    ∀ acc, innerFold row1 row2 N cols acc = acc := by
  induction cols with
  | nil => intro acc; simp [innerFold]
  | cons c cols ih =>
    intro acc
    unfold innerFold
    rw [List.foldl_cons]
    rw [if_neg (by
      rintro ⟨hc, _⟩
      rw [h c (List.mem_cons_self c cols)] at hc
      exact Bool.false_ne_true hc)]
    exact ih (fun c hc => h c (List.mem_cons_of_mem _ hc)) acc

lemma innerFold_hit_ne_nil (row1 row2 : Row) {N : Nat} (hN : 0 < N)
    (cols : List String) (h : ∃ c ∈ cols, colHit row1 row2 c = true) :
    innerFold row1 row2 N cols [] ≠ [] := by
  induction cols with
  | nil => obtain ⟨c, hc, _⟩ := h; exact absurd hc (List.not_mem_nil c)
  | cons c cols ih =>
    unfold innerFold
    rw [List.foldl_cons]
    by_cases hc : colHit row1 row2 c = true
    · rw [if_pos ⟨hc, by simpa using hN⟩]
      intro hnil
      rw [List.nil_append] at hnil
      have hlen := innerFold_length_le row1 row2 N cols [mkMismatch row1 row2 c]
      rw [innerFold] at hlen
      rw [hnil] at hlen
      simp at hlen
    · rw [if_neg (fun hh => hc hh.1)]
      apply ih
      obtain ⟨c', hc', hhit⟩ := h
      rcases List.mem_cons.mp hc' with rfl | hmem
      · exact absurd hhit hc
      · exact ⟨c', hmem, hhit⟩

lemma scan_length_le (dict2 : List (String × Row)) (cols : List String) (N : Nat) :
    ∀ (pfx : List (String × Row)) (acc : List TypeMismatch),
      acc.length ≤ (pfx.foldl (fun acc kr =>
        match dict2.lookup kr.1 with
        | none => acc
        | some row2 => innerFold kr.2 row2 N cols acc) acc).length := by
  intro pfx
  induction pfx with
  | nil => intro acc; simp
  | cons kr pfx ih =>
    intro acc
    rw [List.foldl_cons]
    cases hl : dict2.lookup kr.1 with
    | none => exact ih acc
    | some row2 =>
      calc acc.length ≤ (innerFold kr.2 row2 N cols acc).length :=
            innerFold_length_le kr.2 row2 N cols acc
        _ ≤ _ := ih (innerFold kr.2 row2 N cols acc)

lemma scan_eq_nil_iff (dict2 : List (String × Row)) (cols : List String)
    {N : Nat} (hN : 0 < N) :
    ∀ pfx : List (String × Row),
      (scanTypeMismatches pfx dict2 cols N = [] ↔
        ∀ kr ∈ pfx, matchedHit dict2 cols kr = false) := by
  intro pfx
  induction pfx with
  | nil => simp [scanTypeMismatches]
  | cons kr pfx ih =>
    unfold scanTypeMismatches
    rw [List.foldl_cons]
    cases hl : dict2.lookup kr.1 with
    | none =>
      unfold scanTypeMismatches at ih
      rw [ih]
      constructor
      · intro hall
        intro kr' hkr'
        rcases List.mem_cons.mp hkr' with rfl | hmem
        · unfold matchedHit
          rw [hl]
        · exact hall kr' hmem
      · intro hall kr' hmem
        exact hall kr' (List.mem_cons_of_mem _ hmem)
    | some row2 =>
      simp only []
      by_cases hhit : ∃ c ∈ cols, colHit kr.2 row2 c = true
      · constructor
        · intro hnil
          exfalso
          have hne := innerFold_hit_ne_nil kr.2 row2 hN cols hhit
          have hlen := scan_length_le dict2 cols N pfx (innerFold kr.2 row2 N cols [])
          rw [hnil] at hlen
          simp only [List.length_nil, Nat.le_zero, List.length_eq_zero] at hlen
          exact hne hlen
        · intro hall
          exfalso
          have hmh := hall kr (List.mem_cons_self kr pfx)
          unfold matchedHit at hmh
          rw [hl] at hmh
          obtain ⟨c, hc, hhitc⟩ := hhit
          have hany : cols.any (fun col => colHit kr.2 row2 col) = true :=
            List.any_eq_true.mpr ⟨c, hc, hhitc⟩
          simp only [] at hmh
          rw [hany] at hmh
          exact absurd hmh (by decide)
      · have hallf : ∀ c ∈ cols, colHit kr.2 row2 c = false := by
          intro c hc
          by_contra hne
          exact hhit ⟨c, hc, by simpa using hne⟩
        rw [innerFold_no_hit kr.2 row2 N cols hallf]
        unfold scanTypeMismatches at ih
        rw [ih]
        constructor
        · intro hall kr' hkr'
          rcases List.mem_cons.mp hkr' with rfl | hmem
          · unfold matchedHit
            rw [hl]
            simp only []
            rw [List.any_eq_false]
            intro c hc
            simp [hallf c hc]
          · exact hall kr' hmem
        · intro hall kr' hmem
          exact hall kr' (List.mem_cons_of_mem _ hmem)

lemma dictUpd_length_le {α : Type} (d : List (String × α)) (k : String) (v : α) :
    d.length ≤ (dictUpd d k v).length := by
  unfold dictUpd
  split
  · simp
  · simp

lemma buildRowDict_foldl_length (data : List Row) :
    ∀ acc : List (String × Row), acc.length ≤
      (data.foldl (fun d row => dictUpd d (create_lookup_key row) row) acc).length := by
  induction data with
  | nil => intro acc; simp
  | cons r data ih =>
    intro acc
    rw [List.foldl_cons]
    calc acc.length ≤ (dictUpd acc (create_lookup_key r) r).length :=
          dictUpd_length_le acc (create_lookup_key r) r
      _ ≤ _ := ih (dictUpd acc (create_lookup_key r) r)

lemma buildRowDict_ne_nil (r : Row) (data : List Row) :
    buildRowDict (r :: data) ≠ [] := by
  unfold buildRowDict
  rw [List.foldl_cons]
  intro h
  have hlen := buildRowDict_foldl_length data (dictUpd [] (create_lookup_key r) r)
  unfold buildRowDict at hlen
  rw [h] at hlen
  have hupd : dictUpd ([] : List (String × Row)) (create_lookup_key r) r =
      [(create_lookup_key r, r)] := by
    unfold dictUpd
    simp
  rw [hupd] at hlen
  simp at hlen

lemma scan_ne_nil_iff_any (data1 data2 : List Row) {N : Nat} (hN : 0 < N) :
    (¬ scanTypeMismatches ((buildRowDict data1).take (N * 2)) (buildRowDict data2)
        ((data1.headD []).map Prod.fst) N = []) ↔
      existsTypeMismatchUpTo data1 data2 (N * 2) = true := by
  rw [scan_eq_nil_iff _ _ hN]
  rw [existsTypeMismatchUpTo]
  constructor
  · intro h
    rw [List.any_eq_true]
    by_contra hx
    push_neg at hx
    apply h
    intro kr hkr
    have := hx kr hkr
    simpa using this
  · intro h hall
    rw [List.any_eq_true] at h
    obtain ⟨kr, hkr, hm⟩ := h
    rw [hall kr hkr] at hm
    exact absurd hm (by decide)

/-- Claim C7, counterexample: three rows per side with matching lookup keys
1, 2, 3 (side A stores 3 as the integer 3, side B as the string 3), a type
mismatch on key 3 only, and no one-sided keys.  With sample bound N = 1 the
type-mismatch pass scans only the first 2 entries of the side-A lookup, never
reaches key 3, and reports is_type_only false although a type mismatch exists
among matched rows and no key is one-sided. -/
theorem c7_counterexample :
    existsTypeMismatch
        [[("x", Value.int 1)], [("x", Value.int 2)], [("x", Value.int 3)]]
        [[("x", Value.int 1)], [("x", Value.int 2)], [("x", Value.text "3")]] = true ∧
    onlyKeys [[("x", Value.int 1)], [("x", Value.int 2)], [("x", Value.int 3)]]
        [[("x", Value.int 1)], [("x", Value.int 2)], [("x", Value.text "3")]] = [] ∧
    onlyKeys [[("x", Value.int 1)], [("x", Value.int 2)], [("x", Value.text "3")]]
        [[("x", Value.int 1)], [("x", Value.int 2)], [("x", Value.int 3)]] = [] ∧
    (analyze_row_differences
        [[("x", Value.int 1)], [("x", Value.int 2)], [("x", Value.int 3)]]
        [[("x", Value.int 1)], [("x", Value.int 2)], [("x", Value.text "3")]]
        "t" 1).is_type_only_difference = false := by
  decide

/-- Claim C7, amended: for any sample bound N of at least 1, is_type_only is
true iff a type mismatch exists among the first N * 2 entries of the side-A
lookup whose key also appears on side B, and no lookup key is on one side
only.  (With N = 0 the flag is always false, and mismatches beyond the
scanned prefix are invisible.) -/
theorem c7_amended_type_only_iff (data1 data2 : List Row) (name : String)
    (N : Nat) (hN : 1 ≤ N) :
    (analyze_row_differences data1 data2 name N).is_type_only_difference = true ↔
      (existsTypeMismatchUpTo data1 data2 (N * 2) = true ∧
       onlyKeys data1 data2 = [] ∧ onlyKeys data2 data1 = []) := by
  unfold analyze_row_differences
  split
  · next hemp =>
    constructor
    · intro h
      exact absurd h (by simp [emptyAnalysis])
    · rintro ⟨hex, h1, h2⟩
      exfalso
      rcases hemp with he | he
      · rw [List.isEmpty_iff] at he
        subst he
        rw [existsTypeMismatchUpTo] at hex
        simp [buildRowDict] at hex
      · rw [List.isEmpty_iff] at he
        subst he
        cases data1 with
        | nil =>
          rw [existsTypeMismatchUpTo] at hex
          simp [buildRowDict] at hex
        | cons r rest =>
          have hne := buildRowDict_ne_nil r rest
          have hfil : ((buildRowDict (r :: rest)).map Prod.fst).filter
              (fun k => ((buildRowDict ([] : List Row)).lookup k).isNone) =
              (buildRowDict (r :: rest)).map Prod.fst := by
            apply List.filter_eq_self.mpr
            intro k _
            simp [buildRowDict]
          rw [onlyKeys, hfil, List.map_eq_nil_iff] at h1
          exact hne h1
  · next hemp =>
    simp only []
    have hb : ∀ (s : List TypeMismatch) (k1 k2 : List String),
        ((!s.isEmpty && (k1.isEmpty && k2.isEmpty)) = true ↔
          (¬ s = [] ∧ k1 = [] ∧ k2 = [])) := by
      intro s k1 k2
      simp [List.isEmpty_iff]
    rw [hb]
    exact and_congr (scan_ne_nil_iff_any data1 data2 hN) Iff.rfl

/-- Witness for C7 amended: one matched key with an int versus str mismatch
inside the scanned prefix, sample bound 1. -/
theorem c7_amended_witness :
    ((analyze_row_differences [[("x", Value.int 1)]] [[("x", Value.text "1")]]
        "t" 1).is_type_only_difference = true ↔
      (existsTypeMismatchUpTo [[("x", Value.int 1)]] [[("x", Value.text "1")]]
          (1 * 2) = true ∧
       onlyKeys [[("x", Value.int 1)]] [[("x", Value.text "1")]] = [] ∧
       onlyKeys [[("x", Value.text "1")]] [[("x", Value.int 1)]] = [])) :=
  c7_amended_type_only_iff [[("x", Value.int 1)]] [[("x", Value.text "1")]] "t" 1
    (by decide)

/-- Claim C10: when either input row list of the analyzer is empty, the
returned analysis carries empty type-mismatch and sample lists and a false
type-only flag, so no sample rows are reported for the non-empty side. -/
theorem c10_empty_input_empty_analysis (data1 data2 : List Row) (name : String)
    (N : Nat) (h : data1 = [] ∨ data2 = []) :
    (analyze_row_differences data1 data2 name N).type_mismatches = [] ∧
    (analyze_row_differences data1 data2 name N).sample_rows_db1_only = [] ∧
    (analyze_row_differences data1 data2 name N).sample_rows_db2_only = [] ∧
    (analyze_row_differences data1 data2 name N).is_type_only_difference = false := by
  have hcond : data1.isEmpty ∨ data2.isEmpty := by
    rcases h with h | h
    · left; rw [h]; rfl
    · right; rw [h]; rfl
  unfold analyze_row_differences
  rw [if_pos hcond]
  exact ⟨rfl, rfl, rfl, rfl⟩

/-- Witness for C10: an empty side A against one row on side B. -/
theorem c10_witness :
    (analyze_row_differences [] [[("a", Value.int 1)]] "t" 5).type_mismatches = [] ∧
    (analyze_row_differences [] [[("a", Value.int 1)]] "t" 5).sample_rows_db1_only = [] ∧
    (analyze_row_differences [] [[("a", Value.int 1)]] "t" 5).sample_rows_db2_only = [] ∧
    (analyze_row_differences [] [[("a", Value.int 1)]] "t" 5).is_type_only_difference
      = false :=
  c10_empty_input_empty_analysis [] [[("a", Value.int 1)]] "t" 5 (Or.inl rfl)

end DbComparator
